import Mathlib

/-!
# Verification of `go-aws-lanes` profile handling (`profile.go`)

A shallow embedding of the profile-management code of the `go-aws-lanes`
repository (`profile.go`), together with theorems settling the behavioural
claims about it.

Modelling conventions:
* Go strings are Lean `String`s; the empty string models Go's zero value.
* Go `error` values are the inductive `GoError`; `nil` error is `none` / `[]`
  (for `multierror` accumulation, a Go multierror is a `List GoError` and the
  nil error is the empty list).
* `os.Getenv("LANES_REGION")` is an explicit `env : String` argument
  (Go returns `""` for an unset variable).
* The filesystem visible to `os.Stat`, `ioutil.ReadFile`, `os.MkdirAll` and
  `ioutil.WriteFile` is the explicit state `FS` below, threaded through the
  functions that touch it.
* Pointer-receiver methods that mutate their receiver (`Validate`,
  `SetOverwrite`) return the updated `Profile` alongside their Go result.
* Go maps (`map[string]*ssh.Profile`) are association lists with first-match
  lookup.
-/

/-- Modelled from the spec: one SSH preset per lane — "identity file path,
optional single tunnel spec, optional list of tunnel specs" (`ssh.Profile`,
whose source file is not in the repository snapshot). -/
structure SshProfile where
  Identity : String
  Tunnel : String
  Tunnels : List String
deriving DecidableEq, Repr

/-- Modelled from the spec: "mapping of lane name → SSH settings"
(`ssh.Config`, whose source file is not in the repository snapshot).
The Go map is an association list. -/
structure SshConfig where
  Mods : List (String × SshProfile)
deriving DecidableEq, Repr

/-- Modelled from the spec: the global configuration carrying a default
region ("region falls back to global config"); its source file is not in
the repository snapshot, and `profile.go` reads only its `Region` field. -/
structure Config where
  Region : String
deriving DecidableEq, Repr

/-- The sentinel and wrapped errors surfaced by `profile.go`.
`ErrMissingAccessKey` and `ErrMissingSecretKey` are the sentinels returned by
`Profile.Validate`; the remaining constructors model the `fmt.Errorf`
messages built in `profile.go` (wrapped errors keep their cause). -/
inductive GoError where
  | ErrMissingAccessKey : GoError
  | ErrMissingSecretKey : GoError
  /-- `os.Stat` failed on the path (e.g. the path does not exist). -/
  | statFailed (path : String) : GoError
  /-- `"%s is not user-accessible"` -/
  | notUserAccessible (path : String) : GoError
  /-- `"%s is group-accessible"` -/
  | groupAccessible (path : String) : GoError
  /-- `"%s is world-accessible"` -/
  | worldAccessible (path : String) : GoError
  /-- `"profile %q already exists"` -/
  | profileExists (name : String) : GoError
  /-- `"unable to read profile: %s"` -/
  | unableToRead (path : String) : GoError
  /-- `"unable to parse lane profile: %s"` -/
  | unableToParse (cause : GoError) : GoError
  /-- `"invalid profile: %s"` -/
  | invalidProfile (cause : GoError) : GoError
  /-- An error produced by the YAML library (`yaml.Unmarshal` / `yaml.Marshal`). -/
  | yamlError (msg : String) : GoError
deriving DecidableEq, Repr

/-- The `Profile` struct of `profile.go`: credential pair, optional region,
SSH lane map, plus the unexported pointer to the global config and the
unexported overwrite flag. `global` is `Option Config` (`*Config` in Go,
`none` = nil pointer). -/
structure Profile where
  AWSAccessKeyId : String
  AWSSecretAccessKey : String
  Region : String
  SSH : SshConfig
  global : Option Config
  overwrite : Bool
deriving DecidableEq, Repr

/-- First-match association-list lookup, modelling Go map indexing
(`m[k]` together with its `exists` flag, as `Option`). -/
def lookupMod {α : Type} : List (String × α) → String → Option α
  | [], _ => none
  | (k, v) :: rest, key => if k = key then some v else lookupMod rest key

/-- `Profile.Validate` of `profile.go` (lines 160–178).  Returns the Go
error (`none` = nil) and the possibly updated receiver.  `env` models
`os.Getenv("LANES_REGION")`. -/
def Profile.Validate (this : Profile) (env : String) : Option GoError × Profile :=
  if this.AWSAccessKeyId = "" then
    (some .ErrMissingAccessKey, this)
  else if this.AWSSecretAccessKey = "" then
    (some .ErrMissingSecretKey, this)
  else
    match this.global with
    | some g =>
        if this.Region = "" then
          (none, { this with Region := g.Region })
        else
          (none, this)
    | none =>
        (none, { this with Region := env })

/-- The region-resolution order as the spec words it: the profile's region
if non-empty, otherwise the global config's region if set, otherwise the
environment variable.  Stated from the spec for comparison with
`Profile.Validate`; a nil global config contributes the empty region. -/
def specRegionOrder (profileRegion globalRegion env : String) : String :=
  if profileRegion ≠ "" then profileRegion
  else if globalRegion ≠ "" then globalRegion
  else env

/-- A concrete profile with valid credentials, a non-empty region and no
attached global config, used to exhibit the behaviour of `Validate`. -/
def sampleProfileNoGlobal : Profile :=
  { AWSAccessKeyId := "AKIAEXAMPLE"
    AWSSecretAccessKey := "secret"
    Region := "us-east-1"
    SSH := { Mods := [] }
    global := none
    overwrite := false }

/-- A concrete profile with valid credentials and an empty region, attached
to a global config whose region is also empty. -/
def sampleProfileEmptyGlobal : Profile :=
  { AWSAccessKeyId := "AKIAEXAMPLE"
    AWSSecretAccessKey := "secret"
    Region := ""
    SSH := { Mods := [] }
    global := some { Region := "" }
    overwrite := false }

/-- A concrete profile with a missing access key, used to exhibit the
error path of `Validate`. -/
def sampleProfileNoAccessKey : Profile :=
  { AWSAccessKeyId := ""
    AWSSecretAccessKey := "secret"
    Region := "r"
    SSH := { Mods := [] }
    global := none
    overwrite := false }

/-- Metadata and content of a regular file in the modelled filesystem:
its permission mode (the low nine bits of Go's `os.FileMode`) and its
bytes. -/
structure FileData where
  mode : Nat
  content : List Nat
deriving DecidableEq, Repr

/-- The filesystem state visible to `profile.go` through `os.Stat`,
`ioutil.ReadFile`, `os.MkdirAll` and `ioutil.WriteFile`: regular files and
directories, each an association list from path to data. -/
structure FS where
  files : List (String × FileData)
  dirs : List (String × Nat)
deriving DecidableEq, Repr

/-- `os.Stat` on the modelled filesystem: the mode of the file or directory
at `path`, or `none` when the stat call fails because nothing exists
there. -/
def FS.statMode (fs : FS) (path : String) : Option Nat :=
  match lookupMod fs.files path with
  | some fd => some fd.mode
  | none => lookupMod fs.dirs path

/-- Split a character list on `'/'`, keeping empty groups (the character
list analogue of splitting a path into its elements). -/
def splitSlash : List Char → List (List Char)
  | [] => [[]]
  | c :: rest =>
      match splitSlash rest with
      | [] => [[]]
      | g :: gs => if c = '/' then [] :: g :: gs else (c :: g) :: gs

/-- Join character-list path elements back with `'/'` separators. -/
def joinSlash : List (List Char) → List Char
  | [] => []
  | [g] => g
  | g :: gs => g ++ '/' :: joinSlash gs

/-- Go's `filepath.Dir` restricted to clean slash-separated paths with no
trailing slash: everything before the final path element, or `"."` when the
path has no separator.  (Go additionally cleans the result; the paths used
in this development are already clean.) -/
def filepathDir (p : String) : String :=
  let parts := splitSlash p.data
  if parts.length ≤ 1 then "." else String.mk (joinSlash parts.dropLast)

/-- `CheckPermissions` of `profile.go` (lines 95–121): stat the path; a
failed stat is fatal; otherwise the path is fatal when the user permission
bits are at most 3, and group- or world-accessibility each append a
warning error.  The returned list models the accumulated `multierror`
(`[]` = nil). -/
def CheckPermissions (fs : FS) (path : String) : Bool × List GoError :=
  match fs.statMode path with
  | none => (true, [GoError.statFailed path])
  | some mode =>
      let fatal : Bool := decide ((mode &&& 0o700) >>> 6 ≤ 3)
      let result : List GoError :=
        if fatal then [GoError.notUserAccessible path] else []
      let result : List GoError :=
        if (mode &&& 0o070) >>> 3 ≠ 0 then result ++ [GoError.groupAccessible path]
        else result
      let result : List GoError :=
        if mode &&& 0o007 ≠ 0 then result ++ [GoError.worldAccessible path]
        else result
      (fatal, result)

/-- The observable outcome of `CheckProfilePermissions`: the printed
message, as its severity label (`"ERROR"` or `"WARNING"`) together with the
errors included in it (`none` when nothing is printed), and whether the
process exits via `os.Exit(1)`. -/
structure CheckOutcome where
  printed : Option (String × List GoError)
  exits : Bool
deriving DecidableEq, Repr

/-- `CheckProfilePermissions` of `profile.go` (lines 64–92).  Note the two
Go statements `result = multierror.Append(dErr)` and
`result = multierror.Append(pErr)`: each builds a fresh multierror from its
single argument without passing the accumulator, so the second assignment
discards the directory errors whenever the profile check produced any. -/
def CheckProfilePermissions (fs : FS) (path : String) : CheckOutcome :=
  let d := CheckPermissions fs (filepathDir path)
  let result : List GoError := if d.2 ≠ [] then d.2 else []
  let p := CheckPermissions fs path
  let result : List GoError := if p.2 ≠ [] then p.2 else result
  let fatal : Bool := d.1 || p.1
  let label : String := if fatal then "ERROR" else "WARNING"
  { printed := if result ≠ [] then some (label, result) else none
    exits := fatal }

/-- The spec's "owning user lacks read/write/execute", read as: the user
lacks at least one of read, write, execute. -/
def userLacksAnyRWX (mode : Nat) : Bool :=
  decide ((mode &&& 0o700) >>> 6 ≠ 7)

/-- The spec's "owning user lacks read/write/execute", read as: the user
lacks all of read, write and execute. -/
def userLacksAllRWX (mode : Nat) : Bool :=
  decide ((mode &&& 0o700) >>> 6 = 0)

/-- A filesystem holding a user-read/write file (mode `0o600`) at `"a"`
and a user-write/execute file (mode `0o300`) at `"b"`. -/
def fsUserModes : FS :=
  { files := [("a", { mode := 0o600, content := [] }),
              ("b", { mode := 0o300, content := [] })]
    dirs := [] }

/-- A filesystem where both the profile directory and the profile file
carry warning-level permission problems: directory `"cfg"` has mode
`0o770` (group-accessible) and file `"cfg/foo.yml"` has mode `0o607`
(world-accessible). -/
def fsBothWarn : FS :=
  { files := [("cfg/foo.yml", { mode := 0o607, content := [] })]
    dirs := [("cfg", 0o770)] }

/-- Modelled from the spec: a fetched EC2 instance — "EC2 instance
attributes plus a derived 'lane' tag and an attached SSH profile
reference" (the `Server` type lives in a source file that is not in the
repository snapshot).  `name` stands in for the displayed instance
attributes; `profile` is the attached SSH profile pointer (`none` = nil). -/
structure Server where
  name : String
  Lane : String
  profile : Option SshProfile
deriving DecidableEq, Repr

/-- The tagging loop of `Profile.FetchServersBy` (profile.go lines
211–215): each server's `profile` field is assigned the lane-map lookup of
its lane tag (nil when absent), and a missed lookup prints a warning.
Returns the printed warnings together with the updated servers. -/
def tagServers (mods : List (String × SshProfile)) :
    List Server → List String × List Server
  | [] => ([], [])
  | svr :: rest =>
      let tagged : Server := { svr with profile := lookupMod mods svr.Lane }
      let warn : List String :=
        if (lookupMod mods svr.Lane).isNone then
          ["WARNING: no profile found for " ++ svr.name ++ " in lane " ++ svr.Lane]
        else []
      let r := tagServers mods rest
      (warn ++ r.1, tagged :: r.2)

/-- `Profile.FetchServersBy` of `profile.go` (lines 204–218), with the
result of the package-level fetch (`FetchServersBy(svc, input)`, defined in
a source file that is not in the repository snapshot) supplied as
`fetched`.  A fetch error is returned as-is; on success every server is
tagged and the warnings are printed, never returned as an error. -/
def Profile.FetchServersBy (this : Profile)
    (fetched : Except GoError (List Server)) :
    List String × Except GoError (List Server) :=
  match fetched with
  | .error e => ([], .error e)
  | .ok servers =>
      let r := tagServers this.SSH.Mods servers
      (r.1, .ok r.2)

/-- `GetProfilePath` of `profile.go` (lines 53–61) as its path computation
`filepath.Join(CONFIG_DIR, name+".yml")`; `CONFIG_DIR` (defined in a
source file that is not in the repository snapshot) is the explicit
`configDir` argument.  The `checkPerms` branch runs
`CheckProfilePermissions` on the path and is modelled at its use site
(`LoadProfile`); `Profile.Write` passes `checkPerms` false. -/
def GetProfilePath (configDir name : String) : String :=
  configDir ++ "/" ++ name ++ ".yml"

/-- `Profile.SetOverwrite` of `profile.go` (lines 155–157). -/
def Profile.SetOverwrite (this : Profile) (value : Bool) : Profile :=
  { this with overwrite := value }

/-- Replace the data stored for `path` in a file association list
(the path is unchanged, only its data is replaced). -/
def replaceFile (files : List (String × FileData)) (path : String)
    (fd : FileData) : List (String × FileData) :=
  match files with
  | [] => []
  | (k, v) :: rest =>
      if k = path then (path, fd) :: rest else (k, v) :: replaceFile rest path fd

/-- `ioutil.WriteFile(dest, out, perm)` on the modelled filesystem:
replaces the content of an existing file — keeping its mode, since the
permission argument applies only on creation — or creates the file with
mode `perm`. -/
def FS.writeFile (fs : FS) (path : String) (out : List Nat) (perm : Nat) : FS :=
  match lookupMod fs.files path with
  | some fd =>
      { fs with files := replaceFile fs.files path { mode := fd.mode, content := out } }
  | none =>
      { fs with files := (path, { mode := perm, content := out }) :: fs.files }

/-- `os.MkdirAll(dir, perm)` on the modelled filesystem: creates the
directory with the given mode when missing, leaves an existing directory
unchanged.  (Creation of missing ancestors is not modelled; the claims
concern the mode of what is created.) -/
def FS.mkdirAll (fs : FS) (dir : String) (perm : Nat) : FS :=
  if (lookupMod fs.dirs dir).isSome then fs
  else { fs with dirs := (dir, perm) :: fs.dirs }

/-- `Profile.WriteFile` of `profile.go` (lines 226–250), with
`yaml.Marshal` (wrapped by `Profile.WriteBytes`) supplied as `marshal`.
Returns the Go error (`.ok ()` = nil) and the updated filesystem: refuse
to overwrite an existing destination unless the overwrite flag is set,
marshal, create the destination directory with mode `0o700`, write the
file with mode `0o600`. -/
def Profile.WriteFile (this : Profile)
    (marshal : Profile → Except GoError (List Nat)) (fs : FS)
    (name dest : String) : Except GoError Unit × FS :=
  if (fs.statMode dest).isSome && !this.overwrite then
    (.error (.profileExists name), fs)
  else
    match marshal this with
    | .error e => (.error e, fs)
    | .ok out =>
        let fs1 := fs.mkdirAll (filepathDir dest) 0o700
        let fs2 := fs1.writeFile dest out 0o600
        (.ok (), fs2)

/-- `Profile.Write` of `profile.go` (lines 221–223): write to the
config-directory path for `name` (with `checkPerms` false, so no
permission check runs). -/
def Profile.Write (this : Profile)
    (marshal : Profile → Except GoError (List Nat)) (fs : FS)
    (configDir name : String) : Except GoError Unit × FS :=
  this.WriteFile marshal fs name (GetProfilePath configDir name)

/-- The observable result of `LoadProfile`: either the process exits via
`os.Exit(1)` inside the permission check, or a Go error is returned, or a
profile is returned. -/
inductive LoadResult where
  | procExit : LoadResult
  | failure (e : GoError) : LoadResult
  | success (p : Profile) : LoadResult
deriving DecidableEq, Repr

/-- `LoadProfileBytes` of `profile.go` (lines 136–152), with
`yaml.Unmarshal` supplied as `unm` and the package-level `config` pointer
as `cfg`: parse, attach the global config, validate. -/
def LoadProfileBytes (unm : List Nat → Except GoError Profile)
    (cfg : Option Config) (env : String) (input : List Nat) :
    Except GoError Profile :=
  match unm input with
  | .error e => .error (.unableToParse e)
  | .ok prof0 =>
      match (let prof1 := { prof0 with global := cfg }; prof1.Validate env) with
      | (some e, _) => .error (.invalidProfile e)
      | (none, prof2) => .ok prof2

/-- `LoadProfile` of `profile.go` (lines 124–133): compute the profile path
with `checkPerms` true — running `CheckProfilePermissions`, which may exit
the process — then read the file and delegate to `LoadProfileBytes`. -/
def LoadProfile (fs : FS) (configDir : String)
    (unm : List Nat → Except GoError Profile) (cfg : Option Config)
    (env : String) (name : String) : LoadResult :=
  let path := GetProfilePath configDir name
  if (CheckProfilePermissions fs path).exits then .procExit
  else
    match lookupMod fs.files path with
    | none => .failure (.unableToRead path)
    | some fd =>
        match LoadProfileBytes unm cfg env fd.content with
        | .error e => .failure e
        | .ok prof => .success prof

/-- The empty filesystem: every stat fails. -/
def fsEmpty : FS := { files := [], dirs := [] }

/-- A marshalling function that always succeeds with the bytes `[1, 2]`,
standing in for `yaml.Marshal` at concrete inputs. -/
def marshalConst : Profile → Except GoError (List Nat) := fun _ => .ok [1, 2]

/-- An unmarshalling function that always fails, standing in for
`yaml.Unmarshal` at concrete inputs. -/
def unmarshalFail : List Nat → Except GoError Profile :=
  fun _ => .error (.yamlError "parse failed")

/-- A filesystem that already holds a profile file at `"cfg/work.yml"`
(mode `0o640`, content `[9]`) inside directory `"cfg"`. -/
def fsExisting : FS :=
  { files := [("cfg/work.yml", { mode := 0o640, content := [9] })]
    dirs := [("cfg", 0o700)] }

/-- C1 counterexample: with no global config attached and `LANES_REGION`
unset (empty), `Validate` overwrites the profile's non-empty region
`"us-east-1"` with the empty environment value, while the spec's
profile → global → environment order would keep `"us-east-1"`. -/
theorem validate_region_ne_spec_order :
    (sampleProfileNoGlobal.Validate "").2.Region ≠
      specRegionOrder sampleProfileNoGlobal.Region "" "" := by
  decide

/-- C1 (amended): for a profile with non-empty credentials, `Validate`
resolves the region as follows.  When a global config is attached, the
profile's region is kept if non-empty and otherwise set to the global
config's region, and the environment variable is never consulted (the
result does not depend on `env`).  When no global config is attached, the
region is unconditionally set to the `LANES_REGION` environment value,
even when the profile's region was non-empty. -/
theorem validate_region_resolution (p : Profile) (env : String)
    (ha : p.AWSAccessKeyId ≠ "") (hs : p.AWSSecretAccessKey ≠ "") :
    (∀ g, p.global = some g →
      (p.Validate env).2.Region = (if p.Region = "" then g.Region else p.Region)) ∧
    (p.global = none → (p.Validate env).2.Region = env) := by
  constructor
  · intro g hg
    simp only [Profile.Validate, if_neg ha, if_neg hs, hg]
    split <;> simp_all
  · intro hg
    simp only [Profile.Validate, if_neg ha, if_neg hs, hg]

/-- C1 witness: applying the amended theorem to the concrete profile with
no global config shows its region becomes the environment value. -/
theorem validate_region_resolution_witness :
    (sampleProfileNoGlobal.Validate "eu-west-1").2.Region = "eu-west-1" :=
  (validate_region_resolution sampleProfileNoGlobal "eu-west-1"
    (by decide) (by decide)).2 rfl

/-- C6: `Validate` returns `ErrMissingAccessKey` exactly when the access key
is empty, `ErrMissingSecretKey` exactly when the access key is non-empty but
the secret key is empty, and nil exactly when both credentials are
non-empty. -/
theorem validate_credential_errors (p : Profile) (env : String) :
    ((p.Validate env).1 = some .ErrMissingAccessKey ↔ p.AWSAccessKeyId = "") ∧
    ((p.Validate env).1 = some .ErrMissingSecretKey ↔
      (p.AWSAccessKeyId ≠ "" ∧ p.AWSSecretAccessKey = "")) ∧
    ((p.Validate env).1 = none ↔
      (p.AWSAccessKeyId ≠ "" ∧ p.AWSSecretAccessKey ≠ "")) := by
  unfold Profile.Validate
  by_cases ha : p.AWSAccessKeyId = "" <;>
    by_cases hs : p.AWSSecretAccessKey = "" <;>
      cases hg : p.global <;>
        by_cases hr : p.Region = "" <;> simp_all

/-- C10: `Validate` modifies no field other than `Region`: the credentials,
the SSH lane map, the global pointer and the overwrite flag are unchanged,
and when `Validate` returns an error the receiver is unchanged entirely
(so `Region` too). -/
theorem validate_frame (p : Profile) (env : String) :
    (p.Validate env).2.AWSAccessKeyId = p.AWSAccessKeyId ∧
    (p.Validate env).2.AWSSecretAccessKey = p.AWSSecretAccessKey ∧
    (p.Validate env).2.SSH = p.SSH ∧
    (p.Validate env).2.global = p.global ∧
    (p.Validate env).2.overwrite = p.overwrite ∧
    ((p.Validate env).1 ≠ none → (p.Validate env).2 = p) := by
  unfold Profile.Validate
  by_cases ha : p.AWSAccessKeyId = "" <;>
    by_cases hs : p.AWSSecretAccessKey = "" <;>
      cases hg : p.global <;>
        by_cases hr : p.Region = "" <;> simp_all

/-- C10 witness: at a profile with a missing access key, the frame theorem
yields that `Validate` leaves the profile unchanged. -/
theorem validate_frame_witness :
    (sampleProfileNoAccessKey.Validate "eu").2 = sampleProfileNoAccessKey :=
  (validate_frame sampleProfileNoAccessKey "eu").2.2.2.2.2 (by decide)

set_option maxRecDepth 8192 in
/-- Helper: for permission modes (below `0o1000`), the user bits are at
most 3 exactly when the user read bit (`0o400`) is unset. -/
theorem userBits_le_three_iff (m : Nat) (hm : m < 512) :
    (m &&& 0o700) >>> 6 ≤ 3 ↔ m &&& 0o400 = 0 := by
  revert m
  decide

set_option maxRecDepth 8192 in
/-- Helper: for permission modes, the shifted group bits are zero exactly
when the masked group bits are zero. -/
theorem groupShift_zero_iff (m : Nat) (hm : m < 512) :
    (m &&& 0o070) >>> 3 = 0 ↔ m &&& 0o070 = 0 := by
  revert m
  decide

/-- C3 counterexample: at mode `0o600` the owning user lacks execute (and so
lacks at least one of read/write/execute) yet `CheckPermissions` is not
fatal, and at mode `0o300` the owning user has write and execute (so does
not lack all of read/write/execute) yet `CheckPermissions` is fatal.
Hence fatality coincides with neither reading of the claim's "owning user
lacks read/write/execute". -/
theorem checkPermissions_fatal_ne_lacks_rwx :
    ((CheckPermissions fsUserModes "a").1 = false ∧ userLacksAnyRWX 0o600 = true) ∧
    ((CheckPermissions fsUserModes "b").1 = true ∧ userLacksAllRWX 0o300 = false) := by
  decide

/-- C3 (amended): for every existing path with a permission mode,
`CheckPermissions` classifies the path as fatal exactly when the owning
user lacks read permission (the `0o400` bit is unset), regardless of the
user's write and execute bits. -/
theorem checkPermissions_fatal_iff_no_read (fs : FS) (path : String) (mode : Nat)
    (hstat : fs.statMode path = some mode) (hm : mode < 512) :
    (CheckPermissions fs path).1 = true ↔ mode &&& 0o400 = 0 := by
  unfold CheckPermissions
  rw [hstat]
  dsimp only
  rw [decide_eq_true_eq]
  exact userBits_le_three_iff mode hm

/-- C3 witness: at the concrete file `"b"` of mode `0o300`, the amended
theorem applies and both sides of the equivalence hold. -/
theorem checkPermissions_fatal_iff_no_read_witness :
    (CheckPermissions fsUserModes "b").1 = true ↔ 0o300 &&& 0o400 = 0 :=
  checkPermissions_fatal_iff_no_read fsUserModes "b" 0o300 (by decide) (by decide)

/-- C4: for every existing path whose owning user has full access
(user bits `0o700` all set), `CheckPermissions` is not fatal, and it
reports at least one (warning-level) error exactly when the group bits or
the world bits of the mode are non-zero. -/
theorem checkPermissions_warning_iff (fs : FS) (path : String) (mode : Nat)
    (hstat : fs.statMode path = some mode) (hm : mode < 512)
    (hu : mode &&& 0o700 = 0o700) :
    (CheckPermissions fs path).1 = false ∧
    ((CheckPermissions fs path).2 ≠ [] ↔
      (mode &&& 0o070 ≠ 0 ∨ mode &&& 0o007 ≠ 0)) := by
  have h7 : ¬ ((mode &&& 0o700) >>> 6 ≤ 3) := by rw [hu]; decide
  have hgs := groupShift_zero_iff mode hm
  unfold CheckPermissions
  rw [hstat]
  by_cases hg : (mode &&& 0o070) >>> 3 = 0 <;>
    by_cases hw : mode &&& 0o007 = 0 <;>
      simp_all

/-- C4 witness: the directory `"cfg"` of mode `0o770` has a fully
accessible owner and non-zero group bits, so the check is non-fatal and
reports a warning error. -/
theorem checkPermissions_warning_iff_witness :
    (CheckPermissions fsBothWarn "cfg").1 = false ∧
    ((CheckPermissions fsBothWarn "cfg").2 ≠ [] ↔
      (0o770 &&& 0o070 ≠ 0 ∨ 0o770 &&& 0o007 ≠ 0)) :=
  checkPermissions_warning_iff fsBothWarn "cfg" 0o770 (by decide) (by decide) (by decide)

/-- C2: evaluation at a state where both the directory check and the file
check produce (warning-level) permission errors.  The directory check on
`"cfg"` yields its group-accessibility error and the file check on
`"cfg/foo.yml"` yields its world-accessibility error, yet the printed
message holds only the file's error: the directory's error is dropped by
the second `result = multierror.Append(pErr)`, which discards the
accumulator.  No check is fatal, so the process does not exit. -/
theorem checkProfilePermissions_drops_dir_error :
    (CheckPermissions fsBothWarn (filepathDir "cfg/foo.yml")).2 =
      [GoError.groupAccessible "cfg"] ∧
    (CheckPermissions fsBothWarn "cfg/foo.yml").2 =
      [GoError.worldAccessible "cfg/foo.yml"] ∧
    CheckProfilePermissions fsBothWarn "cfg/foo.yml" =
      { printed := some ("WARNING", [GoError.worldAccessible "cfg/foo.yml"])
        exits := false } := by
  decide

/-- Helper: the server list produced by the tagging loop is the fetched
list with each `profile` field set to the lane-map lookup. -/
theorem tagServers_snd (mods : List (String × SshProfile)) (l : List Server) :
    (tagServers mods l).2 =
      l.map (fun svr => { svr with profile := lookupMod mods svr.Lane }) := by
  induction l with
  | nil => rfl
  | cons svr rest ih => simp [tagServers, ih]

/-- C5: on a successfully fetched server list, `FetchServersBy` returns a
nil error and the full fetched list — it never fails because of an
unmatched lane, which only contributes a printed warning — and every
server's attached SSH profile is the lane-map lookup of its lane tag
(nil when the lane is absent from the map). -/
theorem fetchServersBy_success (p : Profile) (servers : List Server) :
    (p.FetchServersBy (.ok servers)).2 =
      .ok (servers.map (fun svr => { svr with profile := lookupMod p.SSH.Mods svr.Lane })) := by
  simp [Profile.FetchServersBy, tagServers_snd]

/-- Helper: replacing the data at a present path makes lookup return the
new data. -/
theorem lookupMod_replaceFile (files : List (String × FileData)) (path : String)
    (fd fd' : FileData) (h : lookupMod files path = some fd) :
    lookupMod (replaceFile files path fd') path = some fd' := by
  induction files with
  | nil => simp [lookupMod] at h
  | cons e rest ih =>
      obtain ⟨k, v⟩ := e
      by_cases hk : k = path
      · subst hk
        simp [replaceFile, lookupMod]
      · simp only [lookupMod, if_neg hk] at h
        simp [replaceFile, lookupMod, hk, ih h]

/-- Helper: after `writeFile`, the path holds the written content; the mode
is the given permission when the file did not exist before. -/
theorem writeFile_lookup (fs : FS) (path : String) (out : List Nat) (perm : Nat) :
    ∃ md, lookupMod (fs.writeFile path out perm).files path =
        some { mode := md, content := out } ∧
      (lookupMod fs.files path = none → md = perm) := by
  unfold FS.writeFile
  cases h : lookupMod fs.files path with
  | none =>
      refine ⟨perm, ?_, fun _ => rfl⟩
      simp [lookupMod]
  | some fd =>
      refine ⟨fd.mode, ?_, fun hc => by simp at hc⟩
      exact lookupMod_replaceFile fs.files path fd _ h

/-- Helper: `writeFile` does not touch directories. -/
theorem writeFile_dirs (fs : FS) (path : String) (out : List Nat) (perm : Nat) :
    (fs.writeFile path out perm).dirs = fs.dirs := by
  unfold FS.writeFile
  cases lookupMod fs.files path <;> rfl

/-- Helper: `mkdirAll` does not touch files. -/
theorem mkdirAll_files (fs : FS) (dir : String) (perm : Nat) :
    (fs.mkdirAll dir perm).files = fs.files := by
  unfold FS.mkdirAll
  split <;> rfl

/-- Helper: `mkdirAll` creates a missing directory with the given mode. -/
theorem mkdirAll_lookup_new (fs : FS) (dir : String) (perm : Nat)
    (h : lookupMod fs.dirs dir = none) :
    lookupMod (fs.mkdirAll dir perm).dirs dir = some perm := by
  unfold FS.mkdirAll
  simp [h, lookupMod]

/-- C7: a successful `Write` persists the marshalled profile at the
config-directory path `name + ".yml"`: afterwards that path holds the
marshalled bytes, with mode `0o600` when the file was created (did not
exist before), and a created destination directory has mode `0o700`. -/
theorem write_persists (p : Profile)
    (marshal : Profile → Except GoError (List Nat)) (fs : FS)
    (configDir name : String) (out : List Nat)
    (hm : marshal p = .ok out)
    (hs : (p.Write marshal fs configDir name).1 = .ok ()) :
    (∃ md, lookupMod ((p.Write marshal fs configDir name).2).files
          (GetProfilePath configDir name) = some { mode := md, content := out } ∧
        (lookupMod fs.files (GetProfilePath configDir name) = none → md = 0o600)) ∧
    (lookupMod fs.dirs (filepathDir (GetProfilePath configDir name)) = none →
      lookupMod ((p.Write marshal fs configDir name).2).dirs
          (filepathDir (GetProfilePath configDir name)) = some 0o700) := by
  unfold Profile.Write Profile.WriteFile at hs ⊢
  by_cases hguard :
      ((fs.statMode (GetProfilePath configDir name)).isSome && !p.overwrite) = true
  · rw [if_pos hguard] at hs
    cases hs
  · rw [if_neg hguard] at hs ⊢
    rw [hm] at hs ⊢
    obtain ⟨md, hlook, hmd⟩ :=
      writeFile_lookup (fs.mkdirAll (filepathDir (GetProfilePath configDir name)) 0o700)
        (GetProfilePath configDir name) out 0o600
    refine ⟨⟨md, hlook, fun hnone => hmd ?_⟩, fun hdir => ?_⟩
    · rw [mkdirAll_files]
      exact hnone
    · rw [writeFile_dirs]
      exact mkdirAll_lookup_new fs (filepathDir (GetProfilePath configDir name)) 0o700 hdir

/-- C7 witness: writing profile `"work"` under config directory `"cfg"` on
the empty filesystem creates `"cfg/work.yml"` with mode `0o600` and the
marshalled bytes, and creates directory `"cfg"` with mode `0o700`. -/
theorem write_persists_witness :
    (∃ md, lookupMod ((sampleProfileNoGlobal.Write marshalConst fsEmpty "cfg" "work").2).files
          (GetProfilePath "cfg" "work") = some { mode := md, content := [1, 2] } ∧
        (lookupMod fsEmpty.files (GetProfilePath "cfg" "work") = none → md = 0o600)) ∧
    (lookupMod fsEmpty.dirs (filepathDir (GetProfilePath "cfg" "work")) = none →
      lookupMod ((sampleProfileNoGlobal.Write marshalConst fsEmpty "cfg" "work").2).dirs
          (filepathDir (GetProfilePath "cfg" "work")) = some 0o700) :=
  write_persists sampleProfileNoGlobal marshalConst fsEmpty "cfg" "work" [1, 2] rfl rfl

/-- C8: when a file already exists at the destination and the profile's
overwrite flag is unset, `WriteFile` returns the "profile already exists"
error and leaves the filesystem (in particular the existing file's
contents) unchanged; after `SetOverwrite true`, the same call replaces the
existing file's contents with the freshly marshalled bytes. -/
theorem writeFile_overwrite_guard (p : Profile)
    (marshal : Profile → Except GoError (List Nat)) (fs : FS)
    (name dest : String) (fd : FileData) (out : List Nat)
    (hex : lookupMod fs.files dest = some fd)
    (hov : p.overwrite = false)
    (hm : marshal (p.SetOverwrite true) = .ok out) :
    p.WriteFile marshal fs name dest = (.error (.profileExists name), fs) ∧
    lookupMod (((p.SetOverwrite true).WriteFile marshal fs name dest).2).files dest =
      some { mode := fd.mode, content := out } := by
  have hstat : fs.statMode dest = some fd.mode := by
    unfold FS.statMode
    rw [hex]
  constructor
  · unfold Profile.WriteFile
    simp [hstat, hov]
  · have hm' : marshal { p with overwrite := true } = .ok out := hm
    have h1 : lookupMod (fs.mkdirAll (filepathDir dest) 0o700).files dest = some fd := by
      rw [mkdirAll_files]
      exact hex
    unfold Profile.WriteFile FS.writeFile
    simp only [Profile.SetOverwrite, hstat, hm', h1, Option.isSome_some, Bool.not_true,
      Bool.and_false, Bool.false_eq_true, if_false]
    exact lookupMod_replaceFile _ _ _ _ h1

/-- C8 witness: with `"cfg/work.yml"` already present, `WriteFile` without
the overwrite flag fails and leaves the filesystem unchanged, and with the
flag set it replaces the file's contents (keeping its mode). -/
theorem writeFile_overwrite_guard_witness :
    sampleProfileNoGlobal.WriteFile marshalConst fsExisting "work" "cfg/work.yml" =
      (.error (.profileExists "work"), fsExisting) ∧
    lookupMod (((sampleProfileNoGlobal.SetOverwrite true).WriteFile marshalConst fsExisting
        "work" "cfg/work.yml").2).files "cfg/work.yml" =
      some { mode := 0o640, content := [1, 2] } :=
  writeFile_overwrite_guard sampleProfileNoGlobal marshalConst fsExisting "work"
    "cfg/work.yml" { mode := 0o640, content := [9] } [1, 2] rfl rfl rfl

/-- C9: when the stat of the profile path fails (nothing exists there),
`CheckPermissions` classifies the path as fatal, and consequently
`LoadProfile` of that profile terminates the process inside the permission
check (`os.Exit(1)`) instead of returning a read error to the caller. -/
theorem loadProfile_missing_file_exits (fs : FS) (configDir name : String)
    (unm : List Nat → Except GoError Profile) (cfg : Option Config) (env : String)
    (h : fs.statMode (GetProfilePath configDir name) = none) :
    (CheckPermissions fs (GetProfilePath configDir name)).1 = true ∧
    LoadProfile fs configDir unm cfg env name = .procExit := by
  have hp : CheckPermissions fs (GetProfilePath configDir name) =
      (true, [.statFailed (GetProfilePath configDir name)]) := by
    unfold CheckPermissions
    rw [h]
  refine ⟨by rw [hp], ?_⟩
  have hexit : (CheckProfilePermissions fs (GetProfilePath configDir name)).exits = true := by
    unfold CheckProfilePermissions
    simp [hp]
  unfold LoadProfile
  simp [hexit]

/-- C9 witness: loading the profile `"missing"` from the empty filesystem
hits the fatal stat failure and exits. -/
theorem loadProfile_missing_file_exits_witness :
    (CheckPermissions fsEmpty (GetProfilePath "cfg" "missing")).1 = true ∧
    LoadProfile fsEmpty "cfg" unmarshalFail none "" "missing" = .procExit :=
  loadProfile_missing_file_exits fsEmpty "cfg" "missing" unmarshalFail none "" rfl
